import Mathlib

/-!
Shallow embedding of the numeric kernels defined in the
`PythonTeaching` repository's notebooks (chiefly
`src/Extras/Performance-solution.ipynb`), with theorems settling the
frozen claims about the repository's specification.

Python/Cython floats are modelled by exact rationals (`ℚ`), as the
claims are stated "under exact real arithmetic".  NumPy arrays are
modelled by `Fin`-indexed functions, except where the Cython code
disables bounds checking and indexes through raw C-contiguous buffers;
those are modelled by flat `ℕ → ℚ` buffers with explicit row-major
offsets, exactly mirroring how the compiled subscripts address memory.
-/

namespace PythonTeaching

/-! ### The trapezoidal-rule integrator and its Cython variants -/

/-- The polynomial `f(x) = 2*x*x + 3*x + 1` defined in the Performance
notebook directly above `trapz`. -/
def fpoly (x : ℚ) : ℚ := 2*x*x + 3*x + 1

/-- `trapz(f, a, b, N)` from the Performance notebook:
`h = (b-a)/float(N); sum_y = 0; x = a;`
`for i in range(N): x += h; sum_y += f(x)`;
`sum_y += .5 * (f(a) + f(b)); return sum_y*h`.
The loop is embedded as a fold over `range N` carrying the pair
`(x, sum_y)`. -/
def trapz (f : ℚ → ℚ) (a b : ℚ) (N : ℕ) : ℚ :=
  let h : ℚ := (b - a) / (N : ℚ)
  let s := (List.range N).foldl (fun s _ => (s.1 + h, s.2 + f (s.1 + h))) (a, (0 : ℚ))
  (s.2 + (1/2) * (f a + f b)) * h

/-- The uniform-grid trapezoidal formula displayed in the markdown cell
immediately above `trapz`:
`I = h/2 * (f(x_0) + 2 f(x_1) + ... + 2 f(x_{N-1}) + f(x_N))`,
i.e. `h * (f(a)/2 + f(a+h) + ... + f(a+(N-1)h) + f(b)/2)`.
This is the specification-side definition, taken from the claim's and
notebook's displayed formula, for comparison with `trapz`. -/
def trapz_formula (f : ℚ → ℚ) (a b : ℚ) (N : ℕ) : ℚ :=
  let h : ℚ := (b - a) / (N : ℚ)
  h * (f a / 2 + (∑ k in Finset.range (N - 1), f (a + ((k : ℚ) + 1) * h)) + f b / 2)

/-- `f2` from the first `%%cython` cell: textually identical to `f`. -/
def f2 (x : ℚ) : ℚ := 2*x*x + 3*x + 1

/-- `f3(double x)` from the typed `%%cython` cell: the same polynomial;
the `double` annotation does not change its exact-arithmetic value. -/
def f3 (x : ℚ) : ℚ := 2*x*x + 3*x + 1

/-- `cdef inline double f4(double x)` from the inlined `%%cython` cell:
the same polynomial again. -/
def f4 (x : ℚ) : ℚ := 2*x*x + 3*x + 1

/-- `trapz2(f, a, b, N)` from the first `%%cython` cell: its body is
textually identical to the pure-Python `trapz`. -/
def trapz2 (f : ℚ → ℚ) (a b : ℚ) (N : ℕ) : ℚ :=
  let h : ℚ := (b - a) / (N : ℚ)
  let s := (List.range N).foldl (fun s _ => (s.1 + h, s.2 + f (s.1 + h))) (a, (0 : ℚ))
  (s.2 + (1/2) * (f a + f b)) * h

/-- `trapz3(f, double a, double b, int N)` from the typed `%%cython`
cell: the `cdef double h, x, sum_y; cdef int i` declarations do not
change the exact-arithmetic value of the identical loop body. -/
def trapz3 (f : ℚ → ℚ) (a b : ℚ) (N : ℕ) : ℚ :=
  let h : ℚ := (b - a) / (N : ℚ)
  let s := (List.range N).foldl (fun s _ => (s.1 + h, s.2 + f (s.1 + h))) (a, (0 : ℚ))
  (s.2 + (1/2) * (f a + f b)) * h

/-- `cpdef double trapz4(double a, double b, int N)` from the inlined
`%%cython` cell: the same loop body with the call to `f4` inlined (no
`f` parameter). -/
def trapz4 (a b : ℚ) (N : ℕ) : ℚ :=
  let h : ℚ := (b - a) / (N : ℚ)
  let s := (List.range N).foldl (fun s _ => (s.1 + h, s.2 + f4 (s.1 + h))) (a, (0 : ℚ))
  (s.2 + (1/2) * (f4 a + f4 b)) * h

/-! ### The pure-Python gradient_descent (Task 1) -/

/-- `np.column_stack((np.ones(n,), X))` from `gradient_descent`: the
bias-augmented matrix with the ones column FIRST (column 0 is all ones,
columns 1..P are X). -/
def nX_py (n P : ℕ) (X : Fin n → Fin P → ℚ) : Fin n → Fin (P + 1) → ℚ :=
  fun i => Fin.cases 1 (fun k => X i k)

/-- `np.dot(A, v)` for a matrix and a vector. -/
def matvec (m k : ℕ) (A : Fin m → Fin k → ℚ) (v : Fin k → ℚ) : Fin m → ℚ :=
  fun i => ∑ j, A i j * v j

/-- `A.T`. -/
def transpose (m k : ℕ) (A : Fin m → Fin k → ℚ) : Fin k → Fin m → ℚ :=
  fun j i => A i j

/-- `c * A` (scalar broadcast over a matrix). -/
def smulMat (c : ℚ) (m k : ℕ) (A : Fin m → Fin k → ℚ) : Fin m → Fin k → ℚ :=
  fun i j => c * A i j

/-- One pass of the `gradient_descent` loop body:
`dE = np.dot((2*nX.T), (np.dot(nX, w) - y)); w -= gamma*dE`. -/
def gd_step (n P : ℕ) (X : Fin n → Fin P → ℚ) (y : Fin n → ℚ) (gamma : ℚ)
    (w : Fin (P + 1) → ℚ) : Fin (P + 1) → ℚ :=
  let nX := nX_py n P X
  let dE := matvec (P + 1) n (smulMat 2 (P + 1) n (transpose n (P + 1) nX))
    (fun i => matvec n (P + 1) nX w i - y i)
  fun j => w j - gamma * dE j

/-- `gradient_descent(X, y, gamma, n_iter)` from the Performance
notebook.  `w = np.random.rand(P+1)` is modelled by the parameter `w0`
(the sampled initial vector); `for i in range(1, n_iter)` performs
`n_iter - 1` passes of the loop body. -/
def gradient_descent (n P : ℕ) (X : Fin n → Fin P → ℚ) (y : Fin n → ℚ)
    (gamma : ℚ) (n_iter : ℕ) (w0 : Fin (P + 1) → ℚ) : Fin (P + 1) → ℚ :=
  (gd_step n P X y gamma)^[n_iter - 1] w0

/-- The update step as claim C2 states it (specification-side
definition from the claim's words, for comparison):
`grad_e = 2 * Xb^T (y - Xb w)` and `w ← w - gamma * grad_e`. -/
def gd_step_claim (n P : ℕ) (X : Fin n → Fin P → ℚ) (y : Fin n → ℚ) (gamma : ℚ)
    (w : Fin (P + 1) → ℚ) : Fin (P + 1) → ℚ :=
  fun j => w j - gamma * (2 * ∑ i, nX_py n P X i j * (y i - ∑ k, nX_py n P X i k * w k))

/-- `gradient_descent` as claim C2 states it: exactly `n_iter` passes
of the claimed update step, from the sampled initial vector `w0`. -/
def gradient_descent_claim (n P : ℕ) (X : Fin n → Fin P → ℚ) (y : Fin n → ℚ)
    (gamma : ℚ) (n_iter : ℕ) (w0 : Fin (P + 1) → ℚ) : Fin (P + 1) → ℚ :=
  (gd_step_claim n P X y gamma)^[n_iter] w0

/-- The update step as the AMENDED claim C2 states it:
`dE = 2 * Xb^T (Xb w - y)` and `w ← w - gamma * dE`. -/
def gd_step_amended (n P : ℕ) (X : Fin n → Fin P → ℚ) (y : Fin n → ℚ) (gamma : ℚ)
    (w : Fin (P + 1) → ℚ) : Fin (P + 1) → ℚ :=
  fun j => w j - gamma * (2 * ∑ i, nX_py n P X i j * ((∑ k, nX_py n P X i k * w k) - y i))

/-- `gradient_descent` as the amended claim C2 states it: exactly
`n_iter - 1` passes of the amended update step. -/
def gradient_descent_amended (n P : ℕ) (X : Fin n → Fin P → ℚ) (y : Fin n → ℚ)
    (gamma : ℚ) (n_iter : ℕ) (w0 : Fin (P + 1) → ℚ) : Fin (P + 1) → ℚ :=
  (gd_step_amended n P X y gamma)^[n_iter - 1] w0

/-! ### The Cython gradient_descent2

`gradient_descent2` is compiled with `@cython.boundscheck(False)` and
`@cython.wraparound(False)`, and its hand-written loops subscript the
buffers of `nX` (shape `(n, P+1)`, C-contiguous, element `(i,j)` at
row-major offset `i*(P+1)+j`) and of the strided view `nXT = nX.T`
(same buffer, element `(k,j)` of the view at offset `k + j*(P+1)`).
We model the shared buffer as a flat `ℕ → ℚ` map; offsets outside the
allocation are given the junk value 0, so the model is exact whenever
every performed access stays inside the allocation (which holds at the
inputs used in the theorems below). -/

/-- The buffer of `nX = np.column_stack((X, np.ones(n)))` from
`gradient_descent2`: the bias/ones column is LAST (column P). -/
def gd2_buf0 (n P : ℕ) (X : ℕ → ℕ → ℚ) : ℕ → ℚ :=
  fun idx =>
    if idx < n * (P + 1) then
      (if idx % (P + 1) < P then X (idx / (P + 1)) (idx % (P + 1)) else 1)
    else 0

/-- The in-place pre-loop of `gradient_descent2`:
`for j in range(P): for k in range(n): nXT[k,j] *= 2.0`.
`nXT[k,j]` addresses offset `k + j*(P+1)` of the buffer shared with
`nX`. -/
def gd2_buf (n P : ℕ) (X : ℕ → ℕ → ℚ) : ℕ → ℚ :=
  (List.range P).foldl
    (fun B j => (List.range n).foldl
      (fun B k => Function.update B (k + j * (P + 1)) (B (k + j * (P + 1)) * 2)) B)
    (gd2_buf0 n P X)

/-- One pass of the `gradient_descent2` main loop, over the (already
doubled-in-place) buffer `B`:
`for j in range(n): suma = Σ_{k<P+1} nX[k,j]*w[k]; tmp_d[j] = suma - y[j]`
(`nX[k,j]` is offset `k*(P+1)+j`),
`for j in range(P+1): suma = Σ_{k<n} nXT[k,j]*tmp_d[k]; tmp_dE[j] = suma`
(`nXT[k,j]` is offset `k + j*(P+1)`),
`for j in range(P+1): w[j] -= gamma * tmp_dE[j]`.
The scratch arrays `tmp_d` and `tmp_dE` are modelled as the functions
their filled entries define; they are only read at the filled
indices. -/
def gd2_step (n P : ℕ) (B : ℕ → ℚ) (y : ℕ → ℚ) (gamma : ℚ) (w : ℕ → ℚ) : ℕ → ℚ :=
  let tmp_d : ℕ → ℚ :=
    fun j => ((List.range (P + 1)).foldl (fun s k => s + B (k * (P + 1) + j) * w k) 0) - y j
  let tmp_dE : ℕ → ℚ :=
    fun j => (List.range n).foldl (fun s k => s + B (k + j * (P + 1)) * tmp_d k) 0
  fun j => if j < P + 1 then w j - gamma * tmp_dE j else w j

/-- `gradient_descent2(X, y, gamma, n_iter)` from the Performance
notebook: builds `nX` with the ones column last, doubles part of the
shared buffer in place through the `nXT` view, then performs exactly
`n_iter` passes (`for i in range(n_iter)`) of the main loop.
`w = np.random.rand(P+1)` is modelled by the parameter `w0`. -/
def gradient_descent2 (n P : ℕ) (X : ℕ → ℕ → ℚ) (y : ℕ → ℚ) (gamma : ℚ)
    (n_iter : ℕ) (w0 : ℕ → ℚ) : ℕ → ℚ :=
  (gd2_step n P (gd2_buf n P X) y gamma)^[n_iter] w0

/-- Per-dimension in-bounds check for every buffer subscript performed
by `gradient_descent2`, one conjunct per loop nest of the source:
* pre-loop `nXT[k,j]`, `j < P`, `k < n`: `nXT` has shape `(P+1, n)`,
  so it needs `k < P+1 ∧ j < n`;
* first inner loop `nX[k,j]`, `j < n`, `k < P+1`: `nX` has shape
  `(n, P+1)`, so it needs `k < n ∧ j < P+1` (the accesses `w[k]`,
  `y[j]`, `tmp_d[j]` there are always in bounds);
* second inner loop `nXT[k,j]`, `j < P+1`, `k < n`: needs
  `k < P+1 ∧ j < n` (the accesses `tmp_d[k]`, `tmp_dE[j]` there are
  always in bounds, as are `w[j]`, `tmp_dE[j]` in the update loop). -/
def gd2_subscripts_ok (n P : ℕ) : Bool :=
  ((List.range P).all fun j => (List.range n).all fun k =>
    decide (k < P + 1) && decide (j < n)) &&
  ((List.range n).all fun j => (List.range (P + 1)).all fun k =>
    decide (k < n) && decide (j < P + 1)) &&
  ((List.range (P + 1)).all fun j => (List.range n).all fun k =>
    decide (k < P + 1) && decide (j < n))

/-! ### apply_trapz -/

/-- `apply_trapz(col_a, col_b, col_n)` from the Performance notebook:
asserts the dtypes (float, float, int — modelled by the element types
`ℚ`, `ℚ`, `ℕ`) and `len(col_a) == len(col_b) == n` with
`n = len(col_n)`, then fills `res[i] = trapz4(col_a[i], col_b[i],
col_n[i])`.  A failed `assert` raises `AssertionError`, modelled by
`Except.error`. -/
def apply_trapz (col_a col_b : List ℚ) (col_n : List ℕ) : Except String (List ℚ) :=
  let n := col_n.length
  if col_a.length = col_b.length ∧ col_b.length = n then
    Except.ok ((col_a.zip (col_b.zip col_n)).map fun p => trapz4 p.1 p.2.1 p.2.2)
  else
    Except.error "AssertionError"

/-! ### Monte Carlo pi (Task 2) -/

/-- `monte_carlo_pi_nojit(n_samples)` from the Performance notebook:
`acc = 0; for i in range(n_samples): x = random(); y = random();`
`if (x**2 + y**2) < 1.: acc += 1`; `return 4. * acc / n_samples`.
The stream of `random()` draws is modelled by the parameter `us`,
consumed in call order (`x` is draw `2*i`, `y` is draw `2*i+1`). -/
def monte_carlo_pi_nojit (us : ℕ → ℚ) (n_samples : ℕ) : ℚ :=
  let acc := (List.range n_samples).foldl
    (fun acc i => if (us (2*i))^2 + (us (2*i+1))^2 < 1 then acc + 1 else acc) (0 : ℕ)
  4 * (acc : ℚ) / (n_samples : ℚ)

/-- `monte_carlo_pi_jit(n_samples)`: the `@jit(nopython=True)` variant,
whose body is textually identical to `monte_carlo_pi_nojit`. -/
def monte_carlo_pi_jit (us : ℕ → ℚ) (n_samples : ℕ) : ℚ :=
  let acc := (List.range n_samples).foldl
    (fun acc i => if (us (2*i))^2 + (us (2*i+1))^2 < 1 then acc + 1 else acc) (0 : ℕ)
  4 * (acc : ℚ) / (n_samples : ℚ)

/-- The number of the first `n` drawn pairs `(x, y)` with
`x^2 + y^2 < 1` (the count named `acc` in claim C8). -/
def mc_hits (us : ℕ → ℚ) (n : ℕ) : ℕ :=
  ((Finset.range n).filter fun i => (us (2*i))^2 + (us (2*i+1))^2 < 1).card

/-! ### pairwise_py -/

/-- `pairwise_py(X)` from the Performance notebook:
`M, N = X.shape; D = np.empty((M,M));`
`for i in range(M): for j in range(M): d = 0.0;`
`for k in range(N): tmp = X[i,k] - X[j,k]; d += tmp*tmp;`
`D[i,j] = np.sqrt(d)`.
The external library routine `np.sqrt` is modelled by the parameter
`rsqrt`; the filled array `D` is the returned function. -/
def pairwise_py (rsqrt : ℚ → ℚ) (M N : ℕ) (X : Fin M → Fin N → ℚ) :
    Fin M → Fin M → ℚ :=
  fun i j => rsqrt ((List.finRange N).foldl
    (fun d k => d + (X i k - X j k) * (X i k - X j k)) 0)

/-- A concrete 2×1 input matrix used to instantiate the `pairwise_py`
theorem. -/
def X9 : Fin 2 → Fin 1 → ℚ := fun i _ => if (i : ℕ) = 0 then 3 else 7

/-! ### File operations of the notebooks -/

/-- A file system: a map from paths to file contents. -/
def FS : Type := String → Option String

/-- Every file-touching call appearing in the repository's three
sources, in order: `pd.read_excel` (twice), `pd.read_table`,
`pd.read_csv` in the plotting notebook, and `plt.imread` in the scipy
notebook.  No cell in any of the sources invokes a file-writing API. -/
def notebook_file_reads : List String :=
  ["../2. Python Data Handling - Pandas and Networkx/titanic.xlsx",
   "../2. Python Data Handling - Pandas and Networkx/wine.dat",
   "../2. Python Data Handling - Pandas and Networkx/titanic.xlsx",
   "../2. Python Data Handling - Pandas and Networkx/cdystonia.csv",
   "butterfly.jpg"]

/-- Semantics of one library read call (`pd.read_*` / `plt.imread`):
it returns the contents stored at the path and leaves the file system
unchanged. -/
def run_read (fs : FS) (p : String) : FS × Option String := (fs, fs p)

/-- Executing, in order, every file operation the notebooks perform:
threads the file system through each read, collecting the loaded
data. -/
def run_notebook_reads (fs : FS) : FS × List (Option String) :=
  notebook_file_reads.foldl
    (fun s p => ((run_read s.1 p).1, s.2 ++ [(run_read s.1 p).2])) (fs, [])

/-! ## Helper lemmas -/

/-- Closed form of the `trapz` loop: starting at `x = a`, `sum_y = 0`,
after `N` passes `x = a + N*h` and `sum_y = Σ_{k<N} f (a + (k+1) h)`. -/
theorem trapz_loop_eq (f : ℚ → ℚ) (a h : ℚ) (N : ℕ) :
    (List.range N).foldl (fun s _ => (s.1 + h, s.2 + f (s.1 + h))) (a, (0 : ℚ))
      = (a + (N : ℚ) * h, ∑ k in Finset.range N, f (a + ((k : ℚ) + 1) * h)) := by
  induction N with
  | zero => simp
  | succ n ih =>
    rw [List.range_succ, List.foldl_append, ih]
    simp only [List.foldl_cons, List.foldl_nil, Finset.sum_range_succ, Prod.mk.injEq]
    constructor
    · push_cast; ring
    · congr 1
      ring_nf

/-- The two update steps of `gradient_descent`: the embedded numpy
expression `dE = np.dot((2*nX.T), (np.dot(nX, w) - y))` computes, entry
by entry, the amended claim's `2 * Xb^T (Xb w - y)`. -/
theorem gd_step_eq_amended (n P : ℕ) (X : Fin n → Fin P → ℚ) (y : Fin n → ℚ)
    (gamma : ℚ) : gd_step n P X y gamma = gd_step_amended n P X y gamma := by
  funext w j
  simp only [gd_step, gd_step_amended, matvec, transpose, smulMat, Finset.mul_sum]
  congr 1
  exact Finset.sum_congr rfl fun i _ => by ring

/-- The `monte_carlo_pi` accumulator loop counts exactly the drawn
pairs inside the unit quarter circle. -/
theorem mc_loop_eq (us : ℕ → ℚ) (n : ℕ) :
    (List.range n).foldl
      (fun acc i => if (us (2*i))^2 + (us (2*i+1))^2 < 1 then acc + 1 else acc) (0 : ℕ)
      = mc_hits us n := by
  induction n with
  | zero => simp [mc_hits]
  | succ m ih =>
    rw [List.range_succ, List.foldl_append, List.foldl_cons, List.foldl_nil, ih]
    unfold mc_hits
    rw [Finset.range_succ, Finset.filter_insert]
    by_cases hp : (us (2*m))^2 + (us (2*m+1))^2 < 1
    · rw [if_pos hp, if_pos hp, Finset.card_insert_of_not_mem
        fun hm => Finset.not_mem_range_self (Finset.mem_of_mem_filter m hm)]
    · rw [if_neg hp, if_neg hp]

/-- A fold that only accumulates additions is the sum of the mapped
list. -/
theorem foldl_add_eq_sum {α : Type} (g : α → ℚ) (l : List α) (c : ℚ) :
    l.foldl (fun d k => d + g k) c = c + (l.map g).sum := by
  induction l generalizing c with
  | nil => simp
  | cons a t ih => simp [ih, add_assoc]

/-- The inner loop of `pairwise_py` computes the sum of squared
coordinate differences. -/
theorem pairwise_loop_eq (M N : ℕ) (X : Fin M → Fin N → ℚ) (i j : Fin M) :
    (List.finRange N).foldl (fun d k => d + (X i k - X j k) * (X i k - X j k)) 0
      = ∑ k : Fin N, (X i k - X j k) * (X i k - X j k) := by
  rw [foldl_add_eq_sum, zero_add, Fin.sum_univ_def]

/-! ## Claims -/

/-- C1: the claim states that `trapz(f, a, b, N)` returns the composite
trapezoidal approximation `h*(f(a)/2 + f(a+h) + ... + f(a+(N-1)h) +
f(b)/2)` displayed immediately above the definition.  The code does
not: its loop runs `x` from `a+h` up to `a+N*h = b`, so `f(b)` is
accumulated once in the loop and then again with weight 1/2, giving
`f(b)` total weight 3/2.  At `f(x) = 2x²+3x+1`, `a = 0`, `b = 1`,
`N = 1` the code returns 19/2 while the displayed formula gives 7/2. -/
theorem C1_trapz_overweights_right_endpoint :
    trapz fpoly 0 1 1 = 19/2 ∧ trapz_formula fpoly 0 1 1 = 7/2 ∧
    trapz fpoly 0 1 1 ≠ trapz_formula fpoly 0 1 1 := by
  refine ⟨?_, ?_, ?_⟩
  · norm_num [trapz, fpoly, List.range_succ]
  · norm_num [trapz_formula, fpoly]
  · norm_num [trapz, trapz_formula, fpoly, List.range_succ]

/-- C2 counterexample: at `X = [[1]]`, `y = [1]`, `gamma = 1`,
`n_iter = 2`, initial `w = [0, 0]`, the code returns `w = [2, 2]`
(it performs `n_iter - 1 = 1` update of `w ← w - γ·2Xb^T(Xb w - y)`),
while the claimed procedure (`n_iter` updates of
`w ← w - γ·2Xb^T(y - Xb w)`) returns `[-12, -12]`; so the claim as
stated is false on the code. -/
theorem C2_claim_counterexample :
    gradient_descent 1 1 ![![1]] ![1] 1 2 ![0, 0] 0 = 2 ∧
    gradient_descent_claim 1 1 ![![1]] ![1] 1 2 ![0, 0] 0 = -12 ∧
    gradient_descent 1 1 ![![1]] ![1] 1 2 ![0, 0]
      ≠ gradient_descent_claim 1 1 ![![1]] ![1] 1 2 ![0, 0] := by
  have e1 : gradient_descent 1 1 ![![1]] ![1] 1 2 ![0, 0] 0 = 2 := by
    norm_num [gradient_descent, gd_step, matvec, transpose, smulMat, nX_py,
      Fin.sum_univ_succ]
  have e2 : gradient_descent_claim 1 1 ![![1]] ![1] 1 2 ![0, 0] 0 = -12 := by
    norm_num [gradient_descent_claim, gd_step_claim, nX_py, Fin.sum_univ_succ]
  exact ⟨e1, e2, fun h => by rw [congrFun h 0, e2] at e1; norm_num at e1⟩

/-- C2 amended: `gradient_descent(X, y, gamma, n_iter)` starts from the
sampled initial weight vector (`np.random.rand(P+1)`, modelled by the
parameter `w0`), performs exactly `n_iter - 1` iterations
(`for i in range(1, n_iter)`), and each iteration updates `w` to
`w - gamma * dE` with `dE = 2 * Xb^T (Xb w - y)`, where `Xb` is the
bias-augmented matrix with the ones column first. -/
theorem C2_gradient_descent_amended_ok (n P : ℕ) (X : Fin n → Fin P → ℚ)
    (y : Fin n → ℚ) (gamma : ℚ) (n_iter : ℕ) (w0 : Fin (P + 1) → ℚ) :
    gradient_descent n P X y gamma n_iter w0
      = gradient_descent_amended n P X y gamma n_iter w0 := by
  unfold gradient_descent gradient_descent_amended
  rw [gd_step_eq_amended]

/-- C3: at `X = [[1], [0]]`, `y = [0, 0]`, `gamma = 1`, `n_iter = 1`,
initial `w = [1, 1]` (a shape with `n = P + 1`, where every buffer
subscript of `gradient_descent2` stays inside the allocation, so the
flat-buffer model is exact), the pure-Python `gradient_descent` returns
`[1, 1]` (it performs `n_iter - 1 = 0` updates) while the Cython
`gradient_descent2` returns `[-9, -2]`: the two are NOT equal, because
`gradient_descent2` iterates `n_iter` times, puts the bias column last,
doubles only part of the shared `nX` buffer through the `nXT` view, and
subscripts `nX[k,j]`/`nXT[k,j]` with the roles of row and column
swapped relative to its own comments. -/
theorem C3_gradient_descent2_diverges :
    gradient_descent 2 1 ![![1], ![0]] ![0, 0] 1 1 ![1, 1] 0 = 1 ∧
    gradient_descent 2 1 ![![1], ![0]] ![0, 0] 1 1 ![1, 1] 1 = 1 ∧
    gradient_descent2 2 1 (fun i _ => if i = 0 then 1 else 0) (fun _ => 0) 1 1
      (fun _ => 1) 0 = -9 ∧
    gradient_descent2 2 1 (fun i _ => if i = 0 then 1 else 0) (fun _ => 0) 1 1
      (fun _ => 1) 1 = -2 := by
  refine ⟨?_, ?_, ?_, ?_⟩
  · norm_num [gradient_descent]
  · norm_num [gradient_descent]
  · norm_num [gradient_descent2, gd2_step, gd2_buf, gd2_buf0, List.range_succ,
      Function.update]
  · norm_num [gradient_descent2, gd2_step, gd2_buf, gd2_buf0, List.range_succ,
      Function.update]

/-- C4: type specialization preserves the integrator: for every `a`,
`b` and `N`, the Cython `trapz2` (with `f2`), `trapz3` (with `f3`) and
`trapz4` return the same value as the pure-Python `trapz` with
`f(x) = 2x² + 3x + 1`, under exact real arithmetic. -/
theorem C4_cython_variants_preserve_trapz (a b : ℚ) (N : ℕ) :
    trapz2 f2 a b N = trapz fpoly a b N ∧
    trapz3 f3 a b N = trapz fpoly a b N ∧
    trapz4 a b N = trapz fpoly a b N :=
  ⟨rfl, rfl, rfl⟩

/-- C5 counterexample: the repository's own notebook code — not an
external library call — implements and performs numerical integration
(`trapz`), gradient descent (`gradient_descent`) and Monte Carlo
estimation (`monte_carlo_pi_nojit`); each embedded repository-defined
function computes a nontrivial result of its algorithm at a concrete
input, refuting "no such algorithm is implemented by a function defined
in repository code". -/
theorem C5_claim_counterexample :
    trapz fpoly 0 1 2 = 25/4 ∧
    gradient_descent 1 1 ![![1]] ![1] 1 3 ![0, 0] 0 = -4 ∧
    monte_carlo_pi_nojit (fun _ => 1/2) 4 = 4 := by
  refine ⟨?_, ?_, ?_⟩
  · norm_num [trapz, fpoly, List.range_succ]
  · norm_num [gradient_descent, gd_step, matvec, transpose, smulMat, nX_py,
      Fin.sum_univ_succ]
  · norm_num [monte_carlo_pi_nojit, List.range_succ]

/-- C5 amended: the repository-defined `trapz` itself computes the
composite quadrature sum
`h * (Σ_{k<N} f(a+(k+1)h) + (f(a)+f(b))/2)` — numerical integration is
implemented in repository code (likewise gradient descent and Monte
Carlo estimation, per the counterexample), not delegated to an external
routine. -/
theorem C5_trapz_closed_form (f : ℚ → ℚ) (a b : ℚ) (N : ℕ) (_hN : 1 ≤ N) :
    trapz f a b N =
      ((∑ k in Finset.range N, f (a + ((k : ℚ) + 1) * ((b - a) / (N : ℚ))))
        + (f a + f b) / 2) * ((b - a) / (N : ℚ)) := by
  simp only [trapz]
  rw [trapz_loop_eq]
  ring

/-- Witness for `C5_trapz_closed_form` at `f(x) = 2x²+3x+1`, `a = 0`,
`b = 1`, `N = 2`. -/
theorem C5_trapz_closed_form_witness :
    1 ≤ 2 ∧
    trapz fpoly 0 1 2 =
      ((∑ k in Finset.range 2, fpoly (0 + ((k : ℚ) + 1) * ((1 - 0) / ((2 : ℕ) : ℚ))))
        + (fpoly 0 + fpoly 1) / 2) * ((1 - 0) / ((2 : ℕ) : ℚ)) :=
  ⟨by norm_num, C5_trapz_closed_form fpoly 0 1 2 (by norm_num)⟩

/-- C6 counterexample: `apply_trapz` deliberately validates its inputs:
on columns of mismatched lengths its `assert` fires and the call is
rejected with `AssertionError`, refuting "there is no input on which it
fails by an explicit assertion or designed error branch". -/
theorem C6_assert_counterexample :
    apply_trapz [1] [] [] = Except.error "AssertionError" := rfl

/-- C6 amended: with the single exception of `apply_trapz` in the
Performance notebook — which asserts its columns' dtypes (float, float,
int) and `len(col_a) == len(col_b) == len(col_n)` and fails with
`AssertionError` otherwise — no repository-defined function validates
its inputs; `apply_trapz` succeeds precisely on equal-length columns. -/
theorem C6_apply_trapz_ok_iff (col_a col_b : List ℚ) (col_n : List ℕ) :
    (∃ r, apply_trapz col_a col_b col_n = Except.ok r) ↔
      (col_a.length = col_b.length ∧ col_b.length = col_n.length) := by
  by_cases hc : col_a.length = col_b.length ∧ col_b.length = col_n.length
  · simp [apply_trapz, hc]
  · simp [apply_trapz, hc]

/-- C7: executing, in order, every file operation performed by the
notebooks' cells (the reads `pd.read_excel`, `pd.read_table`,
`pd.read_csv`, `plt.imread` — no cell invokes a writing API) leaves
every file system unchanged. -/
theorem C7_file_ops_read_only (fs : FS) : (run_notebook_reads fs).1 = fs := rfl

/-- C8: for every stream of uniform draws in `[0,1)` and every
`n_samples ≥ 1`, `monte_carlo_pi_nojit` returns `4*acc/n_samples` where
`acc` counts the drawn pairs with `x² + y² < 1`; the result lies in
`[0, 4]`; and `monte_carlo_pi_jit` computes the same function on the
same draws. -/
theorem C8_monte_carlo_pi (us : ℕ → ℚ) (n : ℕ)
    (_hus : ∀ i, 0 ≤ us i ∧ us i < 1) (hn : 1 ≤ n) :
    monte_carlo_pi_nojit us n = 4 * (mc_hits us n : ℚ) / (n : ℚ) ∧
    0 ≤ monte_carlo_pi_nojit us n ∧ monte_carlo_pi_nojit us n ≤ 4 ∧
    monte_carlo_pi_jit us n = monte_carlo_pi_nojit us n := by
  have hmain : monte_carlo_pi_nojit us n = 4 * (mc_hits us n : ℚ) / (n : ℚ) := by
    simp only [monte_carlo_pi_nojit]
    rw [mc_loop_eq]
  have hn' : (0 : ℚ) < (n : ℚ) := by exact_mod_cast hn
  have hcard : mc_hits us n ≤ n :=
    le_trans (Finset.card_filter_le _ _) (le_of_eq (Finset.card_range n))
  have hcard' : (mc_hits us n : ℚ) ≤ (n : ℚ) := by exact_mod_cast hcard
  refine ⟨hmain, ?_, ?_, rfl⟩
  · rw [hmain]
    positivity
  · rw [hmain, div_le_iff₀ hn']
    nlinarith

/-- Witness for `C8_monte_carlo_pi` on the constant draw stream 1/2
with 3 samples (all three pairs land inside the quarter circle). -/
theorem C8_monte_carlo_pi_witness :
    (∀ i : ℕ, 0 ≤ (fun _ : ℕ => (1:ℚ)/2) i ∧ (fun _ : ℕ => (1:ℚ)/2) i < 1) ∧ 1 ≤ 3 ∧
    (monte_carlo_pi_nojit (fun _ : ℕ => (1:ℚ)/2) 3
        = 4 * (mc_hits (fun _ : ℕ => (1:ℚ)/2) 3 : ℚ) / ((3 : ℕ) : ℚ) ∧
      0 ≤ monte_carlo_pi_nojit (fun _ : ℕ => (1:ℚ)/2) 3 ∧
      monte_carlo_pi_nojit (fun _ : ℕ => (1:ℚ)/2) 3 ≤ 4 ∧
      monte_carlo_pi_jit (fun _ : ℕ => (1:ℚ)/2) 3
        = monte_carlo_pi_nojit (fun _ : ℕ => (1:ℚ)/2) 3) :=
  ⟨fun _ => ⟨by norm_num, by norm_num⟩, by norm_num,
    C8_monte_carlo_pi (fun _ : ℕ => (1:ℚ)/2) 3 (fun _ => ⟨by norm_num, by norm_num⟩)
      (by norm_num)⟩

/-- C9: `pairwise_py(X)` returns the matrix with entries
`D[i,j] = sqrt(Σ_k (X[i,k] - X[j,k])²)`; `D` is symmetric; and (since
`sqrt 0 = 0` in exact arithmetic) its diagonal is zero. -/
theorem C9_pairwise_py_properties (rsqrt : ℚ → ℚ) (M N : ℕ)
    (X : Fin M → Fin N → ℚ) (h0 : rsqrt 0 = 0) :
    (∀ i j, pairwise_py rsqrt M N X i j = rsqrt (∑ k, (X i k - X j k)^2)) ∧
    (∀ i j, pairwise_py rsqrt M N X i j = pairwise_py rsqrt M N X j i) ∧
    (∀ i, pairwise_py rsqrt M N X i i = 0) := by
  have hentry : ∀ i j, pairwise_py rsqrt M N X i j
      = rsqrt (∑ k, (X i k - X j k)^2) := by
    intro i j
    unfold pairwise_py
    rw [pairwise_loop_eq]
    congr 1
    exact Finset.sum_congr rfl fun k _ => by ring
  refine ⟨hentry, ?_, ?_⟩
  · intro i j
    rw [hentry, hentry]
    congr 1
    exact Finset.sum_congr rfl fun k _ => by ring
  · intro i
    rw [hentry]
    simpa using h0

/-- Witness for `C9_pairwise_py_properties` with `rsqrt = id` (which
satisfies `id 0 = 0`) on the concrete 2×1 matrix `X9`. -/
theorem C9_pairwise_py_witness :
    (id : ℚ → ℚ) 0 = 0 ∧
    ((∀ i j, pairwise_py id 2 1 X9 i j = id (∑ k, (X9 i k - X9 j k)^2)) ∧
      (∀ i j, pairwise_py id 2 1 X9 i j = pairwise_py id 2 1 X9 j i) ∧
      (∀ i, pairwise_py id 2 1 X9 i i = 0)) :=
  ⟨rfl, C9_pairwise_py_properties id 2 1 X9 rfl⟩

/-- C10: the claim states every subscript in `gradient_descent2` is in
bounds for every `n ≥ 1`, `P ≥ 1`.  It is not: at `n = 3`, `P = 1` the
first-product loop reads `nX[k,j]` with `j` up to `n-1 = 2` in a
dimension of extent `P+1 = 2` (and dual violations occur whenever
`n ≠ P+1`; the notebook's own call uses `n = 10000`, `P = 500`).  The
shape `n = 2 = P+1` is the only one of the two below where every
subscript is in bounds. -/
theorem C10_gd2_subscripts_not_in_bounds :
    gd2_subscripts_ok 3 1 = false ∧ gd2_subscripts_ok 2 1 = true := by
  exact ⟨rfl, rfl⟩

end PythonTeaching
